import Mathlib

/-!
Verification of the YashAI-Live realtime streaming session engine.

This development shallowly embeds the core logic of the repository:

* the PCM frame codec from `src/utils/audio-utils.ts`
  (`createPcmBlob`, `bytesToBase64`, `base64ToBytes`, `decodeAudioData`);
* the session hook from `src/hooks/useGeminiLive.ts`: the
  `onaudioprocess` capture/VAD path, the `onmessage` playback-scheduling
  and interruption-flush path, the `onopen`/`onerror`/`onclose` transport
  callbacks, `disconnect`, `connect`, `toggleMute`, and the
  `captureAndSendFrame` vision-throttle loop.

Machine floats are modelled as exact rationals (every operation the
claims touch — scaling by 32768, comparisons against literal
thresholds, addition of durations — is exact on the values involved).
Wall-clock timers (the 500 ms silence `setTimeout`) are modelled as a
frame-synchronous countdown with a parametric exit delay measured in
frames. Timestamps and durations are rationals.
-/

namespace YashAILive

/-! ## Frame codec (src/utils/audio-utils.ts) -/

/-- JS number-to-integer truncation (toward zero), as used by the
`ToInt16` coercion performed by `int16[i] = data[i] * 32768`. -/
def jsTrunc (q : ℚ) : ℤ :=
  if 0 ≤ q then ⌊q⌋ else ⌈q⌉

/-- Raw (pre-wrap) integer produced for one sample by `createPcmBlob`:
`data[i] * 32768`, truncated. -/
def pcmRaw (x : ℚ) : ℤ :=
  jsTrunc (x * 32768)

/-- Unsigned 16-bit word stored in the `Int16Array` buffer for one
sample: JS `ToInt16` wraps modulo 2^16 (two's complement layout). -/
def pcmStoredU16 (x : ℚ) : ℕ :=
  (pcmRaw x % 65536).toNat

/-- Byte payload of `createPcmBlob` before base64: the `Int16Array`
buffer viewed as a `Uint8Array`, little endian. -/
def pcmBytes (data : List ℚ) : List ℕ :=
  data.flatMap (fun x => [pcmStoredU16 x % 256, pcmStoredU16 x / 256])

/-- MIME type attached by `createPcmBlob`. -/
def pcmMimeType : String := "audio/pcm;rate=16000"

/-- Base64 encoding at the 6-bit-group level, as performed by
`bytesToBase64` via `btoa` (the fixed alphabet bijection between 6-bit
groups and characters is left implicit; padding groups follow the btoa
layout for a trailing 1- or 2-byte chunk). -/
def btoaSextets : List ℕ → List ℕ
  | a :: b :: c :: rest =>
      a / 4 :: ((a % 4) * 16 + b / 16) :: ((b % 16) * 4 + c / 64) :: c % 64 ::
        btoaSextets rest
  | [a, b] => [a / 4, (a % 4) * 16 + b / 16, (b % 16) * 4]
  | [a] => [a / 4, (a % 4) * 16]
  | [] => []

/-- Base64 decoding at the 6-bit-group level, as performed by
`base64ToBytes` via `atob`. -/
def atobBytes : List ℕ → List ℕ
  | s1 :: s2 :: s3 :: s4 :: rest =>
      (s1 * 4 + s2 / 16) :: ((s2 % 16) * 16 + s3 / 4) :: ((s3 % 4) * 64 + s4) ::
        atobBytes rest
  | [s1, s2, s3] => [s1 * 4 + s2 / 16, (s2 % 16) * 16 + s3 / 4]
  | [s1, s2] => [s1 * 4 + s2 / 16]
  | _ => []

/-- One decoded sample of `decodeAudioData` (mono): a little-endian byte
pair reinterpreted as a signed 16-bit integer, divided by 32768. -/
def int16OfBytes (b0 b1 : ℕ) : ℤ :=
  let u := b0 + 256 * b1
  if u < 32768 then (u : ℤ) else (u : ℤ) - 65536

/-- Sample list produced by `decodeAudioData` (numChannels = 1): the
byte payload is viewed as an `Int16Array` and each entry divided by
32768.0. -/
def decodeAudioSamples : List ℕ → List ℚ
  | b0 :: b1 :: rest => ((int16OfBytes b0 b1 : ℚ) / 32768) :: decodeAudioSamples rest
  | _ => []

/-- Full `createPcmBlob` data field: float samples to 16-bit PCM bytes
to base64 6-bit groups. -/
def createPcmBlobData (data : List ℚ) : List ℕ :=
  btoaSextets (pcmBytes data)

/-- Full receive-side pipeline applied to a base64 payload:
`base64ToBytes` then `decodeAudioData`. -/
def decodePayload (sextets : List ℕ) : List ℚ :=
  decodeAudioSamples (atobBytes sextets)

/-! ## Hook state (src/hooks/useGeminiLive.ts)

One record collects the React state and the mutable refs that the
claims observe. Device and audio-graph handles are modelled as
booleans recording whether the handle is currently held (non-null).
The output gain node is created and destroyed together with the output
audio context, so `outputCtx` also stands for `volumeGainNodeRef`
being non-null; `gain` is the node's current target value. -/

inductive ConnState
  | disconnected
  | connecting
  | connected
  | error
deriving DecidableEq, Repr

inductive VideoSource
  | none
  | camera
  | screen
deriving DecidableEq, Repr

structure HookState where
  connectionState : ConnState
  error : Option String
  isMuted : Bool
  isUserSpeaking : Bool
  isAiSpeaking : Bool
  groundingMetadata : Option ℕ
  mediaStream : Bool
  scriptProcessor : Bool
  inputCtx : Bool
  outputCtx : Bool
  videoActive : Bool
  videoSource : VideoSource
  activeSession : Bool
  currentSessionId : ℕ
  nextStartTime : ℚ
  sources : List (ℚ × ℚ)
  gain : ℚ
  currentVolume : ℚ
  speechAccumulator : ℕ
  silenceTimer : Option ℕ
deriving DecidableEq, Repr

/-- State-dependent VAD threshold from line 325:
`rms > (aiIsTalking ? 0.03 : 0.012)`. -/
def vadThreshold (aiIsTalking : Bool) : ℚ :=
  if aiIsTalking then 0.03 else 0.012

/-- Frame classification used by the `onaudioprocess` branch. -/
def isSpeechFrame (aiIsTalking : Bool) (rms : ℚ) : Bool :=
  rms > vadThreshold aiIsTalking

/-- Advance the 500 ms silence `setTimeout` by one frame interval; the
callback (lines 338-341) clears the speaking flag and ramps the gain
back to full when it fires. -/
def advanceSilenceTimer (st : HookState) : HookState :=
  match st.silenceTimer with
  | Option.none => st
  | some 0 =>
      { st with silenceTimer := Option.none, isUserSpeaking := false,
                gain := if st.outputCtx then 1 else st.gain }
  | some (k + 1) => { st with silenceTimer := some k }

/-- The `onaudioprocess` handler (lines 316-347), parameterised by the
captured session id and by the exit-debounce delay measured in frame
intervals. Returns the new state together with whether this frame was
sent through the transport. -/
def onaudioprocess (sessionId : ℕ) (exitDelay : ℕ) (rms : ℚ) (st : HookState) :
    HookState × Bool :=
  if st.currentSessionId ≠ sessionId then (st, false)
  else
    let st := { st with currentVolume := rms }
    let aiIsTalking : Bool := st.sources.length > 0
    if isSpeechFrame aiIsTalking rms then
      let st := { st with speechAccumulator := st.speechAccumulator + 1 }
      let st :=
        if aiIsTalking ∧ st.speechAccumulator > 2 ∧ st.outputCtx then
          { st with gain := 0.2 }
        else st
      let st := { st with silenceTimer := Option.none }
      let st :=
        if ¬ st.isUserSpeaking then
          { st with isUserSpeaking := true, isAiSpeaking := false }
        else st
      (advanceSilenceTimer st, st.activeSession)
    else
      let st := { st with speechAccumulator := 0 }
      let st :=
        if st.isUserSpeaking ∧ st.silenceTimer = Option.none then
          { st with silenceTimer := some exitDelay }
        else st
      (advanceSilenceTimer st, ¬ aiIsTalking ∧ st.activeSession)

/-- Interruption flush, lines 358-365: stop and clear every active
source, zero the cursor, drop the AI-speaking flag, cancel the gain
ramp and restore full volume. -/
def interruptionFlush (st : HookState) : HookState :=
  { st with sources := [], nextStartTime := 0, isAiSpeaking := false,
            gain := if st.outputCtx then 1 else st.gain }

/-- Payload of one `onmessage` server event. -/
structure MsgEvent where
  interrupted : Bool
  grounding : Option ℕ
  audio : Option (ℚ × ℚ)
deriving DecidableEq, Repr

/-- Plain audio-chunk event carrying the output-clock reading at
arrival and the decoded buffer duration. -/
def audioEvent (a : ℚ × ℚ) : MsgEvent :=
  { interrupted := false, grounding := Option.none, audio := some a }

/-- The `onmessage` handler (lines 355-395). An audio part carries the
pair `(now, duration)`: the output-clock reading taken at line 377 and
the decoded buffer's duration. Scheduling (lines 378, 390-393):
cursor := max cursor now; start the source at the cursor; advance the
cursor by the duration; add the source to the active set; raise the
AI-speaking flag. The 6-second grounding auto-clear timer and the
source `ended` listener are outside every claim and are not modelled. -/
def onmessage (sessionId : ℕ) (ev : MsgEvent) (st : HookState) : HookState :=
  if st.currentSessionId ≠ sessionId then st
  else
    let st := if ev.interrupted then interruptionFlush st else st
    let st :=
      match ev.grounding with
      | some g => { st with groundingMetadata := some g }
      | Option.none => st
    match ev.audio with
    | Option.none => st
    | some (now, dur) =>
        if ¬ st.outputCtx then st
        else
          let start := max st.nextStartTime now
          { st with nextStartTime := start + dur,
                    sources := st.sources ++ [(start, dur)],
                    isAiSpeaking := true }

/-- The `onopen` handler (lines 299-314): once fenced, it installs the
session handle and moves to Connected (node wiring is external). -/
def onopen (sessionId : ℕ) (st : HookState) : HookState :=
  if st.currentSessionId ≠ sessionId then st
  else { st with activeSession := true, connectionState := ConnState.connected }

/-- The `disconnect` teardown (lines 205-244): stop video, release the
microphone stream and script processor, stop and clear all scheduled
sources, clear every timer, close both audio contexts, and reset the
derived state. The error text is not touched and the session id is not
re-minted. -/
def disconnect (st : HookState) : HookState :=
  { st with
      videoActive := false, videoSource := VideoSource.none,
      mediaStream := false, scriptProcessor := false,
      sources := [],
      silenceTimer := Option.none,
      inputCtx := false, outputCtx := false,
      connectionState := ConnState.disconnected,
      nextStartTime := 0,
      activeSession := false,
      groundingMetadata := Option.none,
      isMuted := false,
      isUserSpeaking := false,
      isAiSpeaking := false,
      currentVolume := 0,
      speechAccumulator := 0 }

/-- The `onerror` handler (lines 396-402) as the trace of states it
produces: surface the error, enter Error, then run full teardown. -/
def onerrorTrace (sessionId : ℕ) (st : HookState) : List HookState :=
  if st.currentSessionId = sessionId then
    let st1 := { st with error := some ("Connection Error. Please try again."),
                         connectionState := ConnState.error }
    [st1, disconnect st1]
  else [st]

/-- The `onclose` handler (lines 403-408) as a trace: enter
Disconnected, then run full teardown. No error text is written. -/
def oncloseTrace (sessionId : ℕ) (st : HookState) : List HookState :=
  if st.currentSessionId = sessionId then
    let st1 := { st with connectionState := ConnState.disconnected }
    [st1, disconnect st1]
  else [st]

/-- The open-failure path (`sessionPromise.catch`, lines 418-424) as a
trace: surface the error, enter Error, then run full teardown. -/
def openFailureTrace (sessionId : ℕ) (st : HookState) : List HookState :=
  if st.currentSessionId = sessionId then
    let st1 := { st with error := some ("Failed to connect to YashAI."),
                         connectionState := ConnState.error }
    [st1, disconnect st1]
  else [st]

/-- The `connect` entry sequence (lines 253-296) as a trace of the
states it passes through: install the freshly minted session id, await
`disconnect()`, enter Connecting and clear the error, create the audio
contexts and gain node, then acquire the microphone stream. The
remainder (transport open) is delivered through `onopen`. -/
def connectTrace (st : HookState) (newId : ℕ) : List HookState :=
  let t0 := { st with currentSessionId := newId }
  let t1 := disconnect t0
  let t2 := { t1 with connectionState := ConnState.connecting, error := Option.none }
  let t3 := { t2 with inputCtx := true, outputCtx := true, gain := 1 }
  let t4 := { t3 with mediaStream := true }
  [t0, t1, t2, t3, t4]

/-- The `toggleMute` command (lines 246-251): when the microphone
stream is held, flip the track-enabled bit and the mute flag. Capture
(the script processor) is not stopped and the send path is untouched. -/
def toggleMute (st : HookState) : HookState :=
  if st.mediaStream then { st with isMuted := ¬ st.isMuted } else st

/-! ## Vision throttle (src/hooks/useGeminiLive.ts, lines 159-196) -/

/-- Target capture interval in milliseconds, line 168:
`(currentVolume > 0.01 || isScreenShare) ? 500 : 2000`. -/
def visionTargetInterval (currentVolume : ℚ) (videoSource : VideoSource) : ℚ :=
  if currentVolume > 0.01 ∨ videoSource = VideoSource.screen then 500 else 2000

/-- One tick of `captureAndSendFrame`: returns whether a frame is
captured and sent, and the updated last-send timestamp (lines 161,
170, 186). -/
def captureFrameTick (videoActive : Bool) (connState : ConnState)
    (hasSession : Bool) (currentVolume : ℚ) (videoSource : VideoSource)
    (lastSendTime now : ℚ) : Bool × ℚ :=
  if videoActive ∧ connState = ConnState.connected ∧ hasSession ∧
      now - lastSendTime > visionTargetInterval currentVolume videoSource then
    (true, now)
  else
    (false, lastSendTime)

/-! ## Concrete states used in witnesses and counterexamples -/

/-- Freshly connected quiescent state: session `1` active, no playback,
user silent. -/
def freshConnected : HookState :=
  { connectionState := ConnState.connected, error := Option.none,
    isMuted := false, isUserSpeaking := false, isAiSpeaking := false,
    groundingMetadata := Option.none,
    mediaStream := true, scriptProcessor := true,
    inputCtx := true, outputCtx := true,
    videoActive := false, videoSource := VideoSource.none,
    activeSession := true, currentSessionId := 1,
    nextStartTime := 0, sources := [], gain := 1, currentVolume := 0,
    speechAccumulator := 0, silenceTimer := Option.none }

/-- Connected state in which the AI is audibly playing two scheduled
segments and the cursor sits at 5 seconds. -/
def aiTalkingState : HookState :=
  { freshConnected with
      sources := [(0, 2), (2, 3)], nextStartTime := 5, isAiSpeaking := true }

/-- Speaking-flag trace of the VAD over an energy sequence: the flag
after each processed frame, from `freshConnected`, with exit delay
`d` frames. -/
def speakingTrace (d : ℕ) (energies : List ℚ) : List Bool :=
  ((energies.scanl (fun s e => (onaudioprocess 1 d e s).1) freshConnected).drop 1).map
    (fun s => s.isUserSpeaking)

/-- Connected state in mid-exit-debounce: the user was speaking, the
silence timer is about to fire. -/
def debouncingState : HookState :=
  { freshConnected with isUserSpeaking := true, silenceTimer := some 0 }

/-- Folding a run of audio-chunk arrivals through the `onmessage`
handler (the playback-scheduler view of one session with no flush). -/
def schedFold (sessionId : ℕ) (st : HookState) (arrivals : List (ℚ × ℚ)) :
    HookState :=
  arrivals.foldl (fun s a => onmessage sessionId (audioEvent a) s) st

/-- Interruption-only server event: `interrupted` set, no grounding
and no audio part. -/
def interruptEvent : MsgEvent :=
  { interrupted := true, grounding := Option.none, audio := Option.none }

/-- Every device, node and session resource is released: the state a
full teardown must reach. -/
def released (s : HookState) : Prop :=
  s.mediaStream = false ∧ s.scriptProcessor = false ∧ s.inputCtx = false
  ∧ s.outputCtx = false ∧ s.videoActive = false
  ∧ s.videoSource = VideoSource.none ∧ s.activeSession = false
  ∧ s.sources = []

/-! ## Codec lemmas -/

theorem pcmStoredU16_lt (x : ℚ) : pcmStoredU16 x < 65536 := by
  unfold pcmStoredU16
  omega

theorem pcmBytes_cons (x : ℚ) (xs : List ℚ) :
    pcmBytes (x :: xs)
      = pcmStoredU16 x % 256 :: pcmStoredU16 x / 256 :: pcmBytes xs := rfl

theorem pcmBytes_lt : ∀ (data : List ℚ) (b : ℕ), b ∈ pcmBytes data → b < 256
  | [], b, hb => by simp [pcmBytes] at hb
  | x :: xs, b, hb => by
      have hu := pcmStoredU16_lt x
      rw [pcmBytes_cons] at hb
      simp only [List.mem_cons] at hb
      rcases hb with rfl | rfl | hb
      · omega
      · omega
      · exact pcmBytes_lt xs b hb

theorem atobBytes_btoaSextets : ∀ (l : List ℕ), (∀ x ∈ l, x < 256) →
    atobBytes (btoaSextets l) = l
  | [], _ => rfl
  | [a], h => by
      have ha : a < 256 := h a (by simp)
      simp only [btoaSextets, atobBytes, List.cons.injEq, and_true]
      omega
  | [a, b], h => by
      have ha : a < 256 := h a (by simp)
      have hb : b < 256 := h b (by simp)
      simp only [btoaSextets, atobBytes, List.cons.injEq, and_true]
      refine ⟨?_, ?_⟩ <;> omega
  | a :: b :: c :: rest, h => by
      have ha : a < 256 := h a (by simp)
      have hb : b < 256 := h b (by simp)
      have hc : c < 256 := h c (by simp)
      have ih := atobBytes_btoaSextets rest (fun x hx => h x (by simp [hx]))
      simp only [btoaSextets, atobBytes, List.cons.injEq]
      refine ⟨?_, ?_, ?_, ih⟩ <;> omega

theorem decodeAudioSamples_pcmBytes : ∀ (data : List ℚ),
    decodeAudioSamples (pcmBytes data)
      = data.map (fun x =>
          ((int16OfBytes (pcmStoredU16 x % 256) (pcmStoredU16 x / 256) : ℚ) / 32768))
  | [] => rfl
  | x :: xs => by
      rw [pcmBytes_cons, List.map_cons]
      show _ :: decodeAudioSamples (pcmBytes xs) = _
      rw [decodeAudioSamples_pcmBytes xs]

theorem pcmRaw_bounds (x : ℚ) (h1 : -1 ≤ x) (h2 : x < 1) :
    -32768 ≤ pcmRaw x ∧ pcmRaw x ≤ 32767 := by
  unfold pcmRaw jsTrunc
  split
  · rename_i hx
    have hnn : (0 : ℤ) ≤ ⌊x * 32768⌋ := Int.floor_nonneg.mpr hx
    have hlt : ⌊x * 32768⌋ < 32768 := by
      apply Int.floor_lt.mpr
      push_cast
      nlinarith
    omega
  · rename_i hx
    push_neg at hx
    have hle : ⌈x * 32768⌉ ≤ 0 := Int.ceil_le.mpr (by push_cast; linarith)
    have hge : (-32768 : ℤ) ≤ ⌈x * 32768⌉ := by
      have hq : (-32768 : ℚ) ≤ x * 32768 := by nlinarith
      have := hq.trans (Int.le_ceil (x * 32768))
      exact_mod_cast this
    omega

theorem int16OfBytes_pcmStored (x : ℚ) (h1 : -1 ≤ x) (h2 : x < 1) :
    int16OfBytes (pcmStoredU16 x % 256) (pcmStoredU16 x / 256) = pcmRaw x := by
  obtain ⟨hlo, hhi⟩ := pcmRaw_bounds x h1 h2
  simp only [int16OfBytes, pcmStoredU16]
  split <;> omega

theorem pcmRaw_close (x : ℚ) :
    |x - (pcmRaw x : ℚ) / 32768| ≤ 1 / 32768 := by
  unfold pcmRaw jsTrunc
  split
  · have hfl : ((⌊x * 32768⌋ : ℤ) : ℚ) ≤ x * 32768 := Int.floor_le _
    have hfg : x * 32768 - 1 < ((⌊x * 32768⌋ : ℤ) : ℚ) := Int.sub_one_lt_floor _
    rw [abs_le]
    constructor <;> linarith
  · have hcl : x * 32768 ≤ ((⌈x * 32768⌉ : ℤ) : ℚ) := Int.le_ceil _
    have hcg : ((⌈x * 32768⌉ : ℤ) : ℚ) < x * 32768 + 1 := Int.ceil_lt_add_one _
    rw [abs_le]
    constructor <;> linarith

theorem forall₂_quantized : ∀ (data : List ℚ), (∀ x ∈ data, -1 ≤ x ∧ x < 1) →
    List.Forall₂ (fun x y => |x - y| ≤ 1 / 32768) data
      (data.map (fun x =>
        ((int16OfBytes (pcmStoredU16 x % 256) (pcmStoredU16 x / 256) : ℚ) / 32768)))
  | [], _ => List.Forall₂.nil
  | x :: xs, h => by
      have hx := h x (by simp)
      refine List.Forall₂.cons ?_
        (forall₂_quantized xs (fun y hy => h y (by simp [hy])))
      show |x - (int16OfBytes (pcmStoredU16 x % 256) (pcmStoredU16 x / 256) : ℚ)
              / 32768| ≤ 1 / 32768
      rw [int16OfBytes_pcmStored x hx.1 hx.2]
      exact pcmRaw_close x

/-- C10: for samples in [-1, 1), encoding with createPcmBlob (scale by
32768, truncate, wrap to 16 bits, bytes, base64) and decoding with
base64ToBytes then decodeAudioData reproduces each sample to within
one quantization step 1/32768; a sample equal to 1.0 is not clamped,
overflows the 16-bit range, and decodes as -1.0. -/
theorem c10_codec_roundtrip :
    (∀ data : List ℚ, (∀ x ∈ data, -1 ≤ x ∧ x < 1) →
      List.Forall₂ (fun x y => |x - y| ≤ 1 / 32768) data
        (decodePayload (createPcmBlobData data)))
    ∧ decodePayload (createPcmBlobData [1]) = [-1] := by
  constructor
  · intro data h
    unfold decodePayload createPcmBlobData
    rw [atobBytes_btoaSextets _ (pcmBytes_lt data), decodeAudioSamples_pcmBytes]
    exact forall₂_quantized data h
  · with_unfolding_all decide

/-- C10 witness: the round-trip bound evaluated on a concrete sample
list. -/
theorem c10_codec_roundtrip_witness :
    (∀ x ∈ [(1 : ℚ)/2, -1/4], -1 ≤ x ∧ x < 1)
    ∧ List.Forall₂ (fun x y => |x - y| ≤ 1 / 32768) [(1 : ℚ)/2, -1/4]
        (decodePayload (createPcmBlobData [(1 : ℚ)/2, -1/4])) :=
  ⟨by with_unfolding_all decide,
   c10_codec_roundtrip.1 [(1 : ℚ)/2, -1/4] (by with_unfolding_all decide)⟩

/-! ## Playback scheduler lemmas -/

theorem onmessage_audio_shape (sid : ℕ) (st : HookState) (now dur : ℚ)
    (h1 : st.currentSessionId = sid) (h2 : st.outputCtx = true) :
    onmessage sid (audioEvent (now, dur)) st
      = { st with nextStartTime := max st.nextStartTime now + dur,
                  sources := st.sources ++ [(max st.nextStartTime now, dur)],
                  isAiSpeaking := true } := by
  simp [onmessage, audioEvent, h1, h2]

theorem schedFold_cons (sid : ℕ) (a : ℚ × ℚ) (l : List (ℚ × ℚ))
    (st : HookState) :
    schedFold sid st (a :: l) = schedFold sid (onmessage sid (audioEvent a) st) l :=
  rfl

theorem schedFold_inv (sid : ℕ) :
    ∀ (arrivals : List (ℚ × ℚ)) (st : HookState),
      st.currentSessionId = sid → st.outputCtx = true →
      (∀ a ∈ arrivals, 0 ≤ a.2) →
      (∀ p ∈ st.sources, 0 ≤ p.2 ∧ p.1 + p.2 ≤ st.nextStartTime) →
      List.Pairwise (fun p q : ℚ × ℚ => p.1 + p.2 ≤ q.1) st.sources →
      (∀ p ∈ (schedFold sid st arrivals).sources,
          0 ≤ p.2 ∧ p.1 + p.2 ≤ (schedFold sid st arrivals).nextStartTime)
      ∧ List.Pairwise (fun p q : ℚ × ℚ => p.1 + p.2 ≤ q.1)
          (schedFold sid st arrivals).sources
  | [], _, _, _, _, hI, hP => ⟨hI, hP⟩
  | (now, dur) :: rest, st, h1, h2, hd, hI, hP => by
      have hdur : 0 ≤ dur := by
        have := hd (now, dur) (by simp)
        simpa using this
      rw [schedFold_cons, onmessage_audio_shape sid st now dur h1 h2]
      have hmax : st.nextStartTime ≤ max st.nextStartTime now := le_max_left _ _
      refine schedFold_inv sid rest _ (by simpa using h1) (by simpa using h2)
        (fun a ha => hd a (by simp [ha])) ?_ ?_
      · intro p hp
        simp only [List.mem_append, List.mem_singleton] at hp
        rcases hp with hp | rfl
        · obtain ⟨hp1, hp2⟩ := hI p hp
          exact ⟨hp1, by simp only []; linarith⟩
        · exact ⟨hdur, by simp⟩
      · simp only [List.pairwise_append, List.pairwise_cons]
        refine ⟨hP, by simp, ?_⟩
        intro p hp q hq
        simp only [List.mem_singleton] at hq
        subst hq
        obtain ⟨_, hp2⟩ := hI p hp
        simp only []
        linarith

/-- C1: for a run of decoded response segments arriving in one session
with no flush, each scheduled start time equals max(cursor, output
clock now) at arrival, the cursor then advances by exactly the segment
duration, start times are non-decreasing, and every earlier segment
ends no later than any later segment starts, so no two segments
overlap. -/
theorem c1_cursor_monotonicity :
    (∀ (sid : ℕ) (st : HookState) (now dur : ℚ),
      st.currentSessionId = sid → st.outputCtx = true →
      onmessage sid (audioEvent (now, dur)) st
        = { st with nextStartTime := max st.nextStartTime now + dur,
                    sources := st.sources ++ [(max st.nextStartTime now, dur)],
                    isAiSpeaking := true })
    ∧ (∀ (sid : ℕ) (st : HookState) (arrivals : List (ℚ × ℚ)),
      st.currentSessionId = sid → st.outputCtx = true → st.sources = [] →
      (∀ a ∈ arrivals, 0 ≤ a.2) →
      List.Pairwise (fun p q : ℚ × ℚ => p.1 + p.2 ≤ q.1 ∧ p.1 ≤ q.1)
        (schedFold sid st arrivals).sources) := by
  constructor
  · exact onmessage_audio_shape
  · intro sid st arrivals h1 h2 h0 hd
    obtain ⟨hI, hP⟩ :=
      schedFold_inv sid arrivals st h1 h2 hd (by simp [h0]) (by simp [h0])
    refine List.Pairwise.imp_of_mem ?_ hP
    intro p q hp _ hR
    exact ⟨hR, le_trans (le_add_of_nonneg_right (hI p hp).1) hR⟩

/-- C1 witness: the scheduling step and the no-overlap property at
concrete inputs. -/
theorem c1_cursor_monotonicity_witness :
    (onmessage 1 (audioEvent (3, 2)) freshConnected
      = { freshConnected with
            nextStartTime := max freshConnected.nextStartTime 3 + 2,
            sources := freshConnected.sources
              ++ [(max freshConnected.nextStartTime 3, 2)],
            isAiSpeaking := true })
    ∧ List.Pairwise (fun p q : ℚ × ℚ => p.1 + p.2 ≤ q.1 ∧ p.1 ≤ q.1)
        (schedFold 1 freshConnected [(0, 1), (0, 2), (5, 1)]).sources :=
  ⟨c1_cursor_monotonicity.1 1 freshConnected 3 2 rfl rfl,
   c1_cursor_monotonicity.2 1 freshConnected [(0, 1), (0, 2), (5, 1)] rfl rfl rfl
     (by with_unfolding_all decide)⟩

/-! ## Interruption flush and fencing -/

/-- C2 counterexample: an interruption arrives while two segments are
active and the output clock reads 5 (the cursor equals the clock at
that moment in `aiTalkingState`). The flush empties the active set and
cancels the AI-speaking flag, but the cursor is reset to 0, not to the
clock reading, so the post-flush cursor is not ≥ 5. -/
theorem c2_flush_counterexample :
    (onmessage 1 interruptEvent aiTalkingState).sources = []
    ∧ (onmessage 1 interruptEvent aiTalkingState).isAiSpeaking = false
    ∧ (onmessage 1 interruptEvent aiTalkingState).nextStartTime = 0
    ∧ ¬ (5 ≤ (onmessage 1 interruptEvent aiTalkingState).nextStartTime) := by
  with_unfolding_all decide

/-- C2 amended: an interruption flush with no audio part empties the
active segment set, cancels the AI-speaking signal, restores full gain
when the output context is alive, and resets the cursor to 0 (not to
the output-clock time; the next arrival computes its start as
max(cursor, now), which brings the schedule back to the clock). -/
theorem c2_flush_amended :
    ∀ (sid : ℕ) (ev : MsgEvent) (st : HookState),
      st.currentSessionId = sid → ev.interrupted = true →
      ev.audio = Option.none →
      (onmessage sid ev st).sources = []
      ∧ (onmessage sid ev st).isAiSpeaking = false
      ∧ (onmessage sid ev st).nextStartTime = 0
      ∧ (st.outputCtx = true → (onmessage sid ev st).gain = 1)
      ∧ (∀ now : ℚ, now ≤ max (onmessage sid ev st).nextStartTime now) := by
  intro sid ev st h1 h2 h3
  obtain ⟨i, g, a⟩ := ev
  simp only at h2 h3
  subst h2
  subst h3
  cases g <;>
    simp [onmessage, interruptionFlush, h1] <;>
    exact fun h => by simp [h]

/-- C2 amended witness: the flush evaluated on the concrete two-segment
state. -/
theorem c2_flush_amended_witness :
    (onmessage 1 interruptEvent aiTalkingState).sources = []
    ∧ (onmessage 1 interruptEvent aiTalkingState).isAiSpeaking = false
    ∧ (onmessage 1 interruptEvent aiTalkingState).nextStartTime = 0
    ∧ (aiTalkingState.outputCtx = true →
        (onmessage 1 interruptEvent aiTalkingState).gain = 1)
    ∧ (∀ now : ℚ, now ≤ max (onmessage 1 interruptEvent aiTalkingState).nextStartTime now) :=
  c2_flush_amended 1 interruptEvent aiTalkingState rfl rfl rfl

/-- C3: every asynchronous callback whose captured session id differs
from the current session id is a no-op: the audio-frame handler sends
nothing and changes nothing, and the message, open, error and close
handlers leave the state untouched. -/
theorem c3_fencing :
    ∀ (sid : ℕ) (st : HookState) (exitDelay : ℕ) (rms : ℚ) (ev : MsgEvent),
      st.currentSessionId ≠ sid →
      onaudioprocess sid exitDelay rms st = (st, false)
      ∧ onmessage sid ev st = st
      ∧ onopen sid st = st
      ∧ onerrorTrace sid st = [st]
      ∧ oncloseTrace sid st = [st]
      ∧ openFailureTrace sid st = [st] := by
  intro sid st d rms ev h
  refine ⟨?_, ?_, ?_, ?_, ?_, ?_⟩
  · simp [onaudioprocess, h]
  · simp [onmessage, h]
  · simp [onopen, h]
  · simp [onerrorTrace, h]
  · simp [oncloseTrace, h]
  · simp [openFailureTrace, h]

/-- C3 witness: callbacks captured for session 2 do nothing once
session 1 is current. -/
theorem c3_fencing_witness :
    onaudioprocess 2 3 (1/2) freshConnected = (freshConnected, false)
    ∧ onmessage 2 (audioEvent (0, 1)) freshConnected = freshConnected
    ∧ onopen 2 freshConnected = freshConnected
    ∧ onerrorTrace 2 freshConnected = [freshConnected]
    ∧ oncloseTrace 2 freshConnected = [freshConnected]
    ∧ openFailureTrace 2 freshConnected = [freshConnected] :=
  c3_fencing 2 freshConnected 3 (1/2) (audioEvent (0, 1)) (by decide)

/-! ## Capture pipeline send gating -/

/-- C4 counterexample: a connected, unmuted state with an active
session receives a silent frame (rms 0) while the AI is playing; the
frame is not sent through the transport. -/
theorem c4_send_counterexample :
    aiTalkingState.connectionState = ConnState.connected
    ∧ aiTalkingState.isMuted = false
    ∧ aiTalkingState.activeSession = true
    ∧ (onaudioprocess 1 3 0 aiTalkingState).2 = false := by
  with_unfolding_all decide

theorem onaudioprocess_sent_iff (sid exitDelay : ℕ) (rms : ℚ)
    (st : HookState) :
    (onaudioprocess sid exitDelay rms st).2 = true
      ↔ (st.currentSessionId = sid ∧ st.activeSession = true
          ∧ (isSpeechFrame (st.sources.length > 0) rms = true
             ∨ st.sources = [])) := by
  by_cases h : st.currentSessionId = sid
  · cases hsrc : st.sources with
    | nil =>
        by_cases hs : isSpeechFrame false rms = true
        · simp [onaudioprocess, h, hs, hsrc, apply_ite HookState.activeSession,
            apply_ite HookState.isUserSpeaking]
        · simp [onaudioprocess, h, hs, hsrc, apply_ite HookState.activeSession]
    | cons p l =>
        by_cases hs : isSpeechFrame true rms = true
        · simp [onaudioprocess, h, hs, hsrc, apply_ite HookState.activeSession,
            apply_ite HookState.isUserSpeaking]
        · simp [onaudioprocess, h, hs, hsrc, apply_ite HookState.activeSession]
  · simp [onaudioprocess, h]

/-- C4 amended: a captured frame is sent through the transport exactly
when a session handle is present and either the frame energy exceeds
the state-dependent threshold or no playback segment is active; the
mute flag plays no role in the send decision, and `toggleMute` leaves
the capture chain (media stream and script processor) running. -/
theorem c4_send_amended :
    (∀ (sid exitDelay : ℕ) (rms : ℚ) (st : HookState),
      ((onaudioprocess sid exitDelay rms st).2 = true
        ↔ (st.currentSessionId = sid ∧ st.activeSession = true
            ∧ (isSpeechFrame (st.sources.length > 0) rms = true
               ∨ st.sources = []))))
    ∧ (∀ (sid exitDelay : ℕ) (rms : ℚ) (st : HookState) (m : Bool),
        (onaudioprocess sid exitDelay rms { st with isMuted := m }).2
          = (onaudioprocess sid exitDelay rms st).2)
    ∧ (∀ st : HookState,
        (toggleMute st).scriptProcessor = st.scriptProcessor
        ∧ (toggleMute st).mediaStream = st.mediaStream
        ∧ (toggleMute st).sources = st.sources) := by
  refine ⟨onaudioprocess_sent_iff, ?_, ?_⟩
  · intro sid d rms st m
    rw [Bool.eq_iff_iff, onaudioprocess_sent_iff, onaudioprocess_sent_iff]
  · intro st
    by_cases h : st.mediaStream = true <;> simp [toggleMute, h]

/-- C4 amended witness: the send characterisation evaluated on the
fresh connected state with a silent frame. -/
theorem c4_send_amended_witness :
    (onaudioprocess 1 3 0 freshConnected).2 = true
      ↔ (freshConnected.currentSessionId = 1
          ∧ freshConnected.activeSession = true
          ∧ (isSpeechFrame (freshConnected.sources.length > 0) 0 = true
             ∨ freshConnected.sources = [])) :=
  c4_send_amended.1 1 3 0 freshConnected

/-- C5: the VAD threshold is 0.012 when no playback is active and
0.03 while the AI is audible, with 0.012 < 0.03; any energy strictly
between the two thresholds is classified as speech when the AI is
silent and as silence when the AI is playing, and the handler flips
the user-speaking flag accordingly. -/
theorem c5_threshold_asymmetry :
    vadThreshold false < vadThreshold true
    ∧ (∀ v : ℚ, vadThreshold false < v → v < vadThreshold true →
        isSpeechFrame false v = true ∧ isSpeechFrame true v = false)
    ∧ (∀ v : ℚ, vadThreshold false < v → v < vadThreshold true →
        (onaudioprocess 1 3 v freshConnected).1.isUserSpeaking = true
        ∧ (onaudioprocess 1 3 v aiTalkingState).1.isUserSpeaking = false) := by
  refine ⟨by with_unfolding_all decide, ?_, ?_⟩
  · intro v h1 h2
    constructor
    · simp only [isSpeechFrame, gt_iff_lt, decide_eq_true_eq]
      exact h1
    · simp only [isSpeechFrame, gt_iff_lt, decide_eq_false_iff_not, not_lt]
      exact le_of_lt h2
  · intro v h1 h2
    have hs1 : isSpeechFrame false v = true := by
      simp only [isSpeechFrame, gt_iff_lt, decide_eq_true_eq]
      exact h1
    have hs2 : isSpeechFrame true v = false := by
      simp only [isSpeechFrame, gt_iff_lt, decide_eq_false_iff_not, not_lt]
      exact le_of_lt h2
    constructor
    · have : (freshConnected.sources.length > 0 : Bool) = false := by decide
      simp [onaudioprocess, advanceSilenceTimer, this, hs1, freshConnected]
    · have : (aiTalkingState.sources.length > 0 : Bool) = true := by decide
      simp [onaudioprocess, advanceSilenceTimer, this, hs2, aiTalkingState,
        freshConnected]

/-- C5 witness: energy 1/50 = 0.02 lies strictly between the two
thresholds and is classified as speech only when the AI is silent. -/
theorem c5_threshold_asymmetry_witness :
    (isSpeechFrame false (1/50) = true ∧ isSpeechFrame true (1/50) = false)
    ∧ ((onaudioprocess 1 3 (1/50) freshConnected).1.isUserSpeaking = true
       ∧ (onaudioprocess 1 3 (1/50) aiTalkingState).1.isUserSpeaking = false) :=
  ⟨c5_threshold_asymmetry.2.1 (1/50) (by with_unfolding_all decide)
      (by with_unfolding_all decide),
   c5_threshold_asymmetry.2.2 (1/50) (by with_unfolding_all decide)
      (by with_unfolding_all decide)⟩

/-! ## VAD hysteresis -/

theorem onaudioprocess_speech_entry (sid d : ℕ) (e : ℚ) (st : HookState)
    (h1 : st.currentSessionId = sid)
    (hs : isSpeechFrame (st.sources.length > 0) e = true) :
    (onaudioprocess sid d e st).1.isUserSpeaking = true
    ∧ (onaudioprocess sid d e st).1.silenceTimer = Option.none := by
  cases hsrc : st.sources with
  | nil =>
      rw [hsrc] at hs
      simp at hs
      by_cases hu : st.isUserSpeaking = true <;>
        simp [onaudioprocess, advanceSilenceTimer, h1, hs, hsrc, hu,
          apply_ite HookState.isUserSpeaking, apply_ite HookState.silenceTimer]
  | cons p l =>
      rw [hsrc] at hs
      simp at hs
      by_cases hu : st.isUserSpeaking = true <;>
        simp [onaudioprocess, advanceSilenceTimer, h1, hs, hsrc, hu,
          apply_ite HookState.isUserSpeaking, apply_ite HookState.silenceTimer]

theorem onaudioprocess_exit_only_on_expiry (sid d : ℕ) (e : ℚ)
    (st : HookState) (h1 : st.currentSessionId = sid) (hd : 0 < d)
    (hu : st.isUserSpeaking = true)
    (hres : (onaudioprocess sid d e st).1.isUserSpeaking = false) :
    isSpeechFrame (st.sources.length > 0) e = false
    ∧ st.silenceTimer = some 0 := by
  by_cases hs : isSpeechFrame (st.sources.length > 0) e = true
  · have := (onaudioprocess_speech_entry sid d e st h1 hs).1
    rw [this] at hres
    exact absurd hres (by simp)
  · refine ⟨by simpa using hs, ?_⟩
    rcases htimer : st.silenceTimer with _ | k
    · exfalso
      cases d with
      | zero => exact absurd hd (by simp)
      | succ d₀ =>
          have : (onaudioprocess sid (d₀ + 1) e st).1.isUserSpeaking = true := by
            simp [onaudioprocess, advanceSilenceTimer, h1,
              (by simpa using hs : ¬ isSpeechFrame (st.sources.length > 0) e = true),
              hu, htimer]
          rw [this] at hres
          exact absurd hres (by simp)
    · cases k with
      | zero => rfl
      | succ k₀ =>
          exfalso
          have : (onaudioprocess sid d e st).1.isUserSpeaking = true := by
            simp [onaudioprocess, advanceSilenceTimer, h1,
              (by simpa using hs : ¬ isSpeechFrame (st.sources.length > 0) e = true),
              hu, htimer]
          rw [this] at hres
          exact absurd hres (by simp)

/-- C6: the VAD enters the speaking state on the first frame whose
energy exceeds the threshold (zero entry delay, and any speech frame
cancels a pending exit debounce); once speaking, the flag drops only
when the exit debounce expires on a sub-threshold frame; and on the
energy sequence [0,0,0,0.5,0.5,0,0,0,0] with an exit delay covering 3
zero-frames, speaking becomes true at the first 0.5 frame and becomes
false only after the 3 sub-threshold frames following the last 0.5
have elapsed. -/
theorem c6_vad_hysteresis :
    (∀ (sid d : ℕ) (e : ℚ) (st : HookState),
      st.currentSessionId = sid →
      isSpeechFrame (st.sources.length > 0) e = true →
      (onaudioprocess sid d e st).1.isUserSpeaking = true
      ∧ (onaudioprocess sid d e st).1.silenceTimer = Option.none)
    ∧ (∀ (sid d : ℕ) (e : ℚ) (st : HookState),
      st.currentSessionId = sid → 0 < d → st.isUserSpeaking = true →
      (onaudioprocess sid d e st).1.isUserSpeaking = false →
      isSpeechFrame (st.sources.length > 0) e = false
      ∧ st.silenceTimer = some 0)
    ∧ speakingTrace 3 [0, 0, 0, 1/2, 1/2, 0, 0, 0, 0]
        = [false, false, false, true, true, true, true, true, false] :=
  ⟨fun sid d e st h1 hs => onaudioprocess_speech_entry sid d e st h1 hs,
   fun sid d e st h1 hd hu hres =>
     onaudioprocess_exit_only_on_expiry sid d e st h1 hd hu hres,
   by with_unfolding_all decide⟩

/-- C6 witness: immediate entry on a loud frame from the fresh state,
and the exit conditions evaluated on the mid-debounce state. -/
theorem c6_vad_hysteresis_witness :
    ((onaudioprocess 1 3 (1/2) freshConnected).1.isUserSpeaking = true
     ∧ (onaudioprocess 1 3 (1/2) freshConnected).1.silenceTimer = Option.none)
    ∧ (isSpeechFrame (debouncingState.sources.length > 0) 0 = false
       ∧ debouncingState.silenceTimer = some 0) :=
  ⟨c6_vad_hysteresis.1 1 3 (1/2) freshConnected rfl
      (by with_unfolding_all decide),
   c6_vad_hysteresis.2.1 1 3 0 debouncingState rfl (by decide) rfl
      (by with_unfolding_all decide)⟩

/-! ## Vision throttle -/

/-- C7 counterexample: at the instant speech begins (volume 0.5,
camera active, connected session), only 100 ms after the previous
capture, no frame is captured — the hook has no speech-onset path that
bypasses the interval check. -/
theorem c7_throttle_counterexample :
    captureFrameTick true ConnState.connected true (1/2) VideoSource.camera 0 100
      = (false, 0) := by
  with_unfolding_all decide

/-- C7 amended: with a camera source the capture interval is strictly
shorter while the captured volume is above 0.01 (500 ms) than while it
is at or below 0.01 (2000 ms), but every capture — speech onset
included — passes the interval check: a frame is sent only when the
elapsed time strictly exceeds the target interval. -/
theorem c7_throttle_amended :
    (∀ v₁ v₂ : ℚ, 0.01 < v₁ → v₂ ≤ 0.01 →
      visionTargetInterval v₁ VideoSource.camera
        < visionTargetInterval v₂ VideoSource.camera)
    ∧ (∀ (videoActive : Bool) (connState : ConnState) (hasSession : Bool)
        (volume : ℚ) (videoSource : VideoSource) (lastSendTime now : ℚ),
        (captureFrameTick videoActive connState hasSession volume videoSource
            lastSendTime now).1 = true →
        now - lastSendTime > visionTargetInterval volume videoSource) := by
  constructor
  · intro v₁ v₂ h1 h2
    rw [visionTargetInterval, visionTargetInterval,
      if_pos (Or.inl h1), if_neg (by push_neg; exact ⟨h2, by simp⟩)]
    norm_num
  · intro va cs hs v src last now h
    rw [captureFrameTick] at h
    split at h
    · next hcond => exact hcond.2.2.2
    · simp at h

/-- C7 amended witness: the interval comparison at volumes 1/2 and 0,
and a capture that did pass the interval check. -/
theorem c7_throttle_amended_witness :
    visionTargetInterval (1/2) VideoSource.camera
      < visionTargetInterval 0 VideoSource.camera
    ∧ (600 : ℚ) - 0 > visionTargetInterval (1/2) VideoSource.camera :=
  ⟨c7_throttle_amended.1 (1/2) 0 (by with_unfolding_all decide)
      (by with_unfolding_all decide),
   c7_throttle_amended.2 true ConnState.connected true (1/2)
      VideoSource.camera 0 600 (by with_unfolding_all decide)⟩

/-! ## Session lifecycle -/

/-- C8 counterexample: calling connect with fresh id 9 while session 1
is live installs the new id immediately; the states during teardown
(the first two trace entries) do not retain the old session id, so the
prior session is not fully torn down before the new id is minted. -/
theorem c8_connect_counterexample :
    ¬ (∀ s ∈ (connectTrace aiTalkingState 9).take 2,
        s.currentSessionId = aiTalkingState.currentSessionId) := by
  with_unfolding_all decide

/-- C8 amended: connect first installs the freshly minted session id
(so the new id is already current while the prior session is being
torn down, which is what fences the old session's late callbacks),
then runs the full teardown, and only afterwards enters Connecting;
the teardown releases the session resources before Connecting is
entered. -/
theorem c8_connect_amended :
    ∀ (st : HookState) (newId : ℕ),
      (connectTrace st newId).head? = some { st with currentSessionId := newId }
      ∧ (connectTrace st newId).get? 1
          = some (disconnect { st with currentSessionId := newId })
      ∧ (∀ s ∈ connectTrace st newId, s.currentSessionId = newId)
      ∧ ((connectTrace st newId).get? 2).map (fun s => s.connectionState)
          = some ConnState.connecting
      ∧ released (disconnect { st with currentSessionId := newId }) := by
  intro st newId
  refine ⟨rfl, rfl, ?_, rfl, ?_⟩
  · intro s hs
    simp only [connectTrace, List.mem_cons, List.not_mem_nil, or_false] at hs
    rcases hs with rfl | rfl | rfl | rfl | rfl <;> rfl
  · exact ⟨rfl, rfl, rfl, rfl, rfl, rfl, rfl, rfl⟩

/-- C8 amended witness: the connect ordering evaluated at the fresh
connected state with new id 9. -/
theorem c8_connect_amended_witness :
    (connectTrace freshConnected 9).head?
        = some { freshConnected with currentSessionId := 9 }
    ∧ released (disconnect { freshConnected with currentSessionId := 9 }) :=
  ⟨(c8_connect_amended freshConnected 9).1,
   (c8_connect_amended freshConnected 9).2.2.2.2⟩

/-! ## Transport failure handling -/

/-- C9 counterexample: an unexpected transport close for the current
session tears the session down silently: along the whole close trace
the error text stays empty and the state never enters Error,
contradicting the claim that every transport failure surfaces an
error and passes through the Error state. -/
theorem c9_close_counterexample :
    (oncloseTrace 1 freshConnected).map (fun s => (s.error, s.connectionState))
      = [(Option.none, ConnState.disconnected),
         (Option.none, ConnState.disconnected)] := by
  with_unfolding_all decide

/-- C9 amended: a mid-session transport error or an open failure for
the current session surfaces an error message and passes through the
Error state before the full teardown leaves the state Disconnected
with the error text retained; an unexpected close performs the same
full teardown but surfaces no error and never enters Error; no path
re-mints the session id or re-enters Connecting (no automatic
reconnect), and the teardown releases every resource. -/
theorem c9_failure_amended :
    (∀ (sid : ℕ) (st : HookState), st.currentSessionId = sid →
      (onerrorTrace sid st).map (fun s => (s.connectionState, s.error))
        = [(ConnState.error, some ("Connection Error. Please try again.")),
           (ConnState.disconnected, some ("Connection Error. Please try again."))]
      ∧ (openFailureTrace sid st).map (fun s => (s.connectionState, s.error))
        = [(ConnState.error, some ("Failed to connect to YashAI.")),
           (ConnState.disconnected, some ("Failed to connect to YashAI."))]
      ∧ (oncloseTrace sid st).map (fun s => (s.connectionState, s.error))
        = [(ConnState.disconnected, st.error), (ConnState.disconnected, st.error)]
      ∧ (∀ s ∈ onerrorTrace sid st, s.currentSessionId = st.currentSessionId
          ∧ s.connectionState ≠ ConnState.connecting)
      ∧ (∀ s ∈ openFailureTrace sid st, s.currentSessionId = st.currentSessionId
          ∧ s.connectionState ≠ ConnState.connecting)
      ∧ (∀ s ∈ oncloseTrace sid st, s.currentSessionId = st.currentSessionId
          ∧ s.connectionState ≠ ConnState.connecting))
    ∧ (∀ s : HookState, released (disconnect s)) := by
  constructor
  · intro sid st h
    refine ⟨?_, ?_, ?_, ?_, ?_, ?_⟩
    · simp [onerrorTrace, h, disconnect]
    · simp [openFailureTrace, h, disconnect]
    · simp [oncloseTrace, h, disconnect]
    · intro s hs
      simp only [onerrorTrace, h, if_pos, List.mem_cons, List.not_mem_nil,
        or_false] at hs
      rcases hs with rfl | rfl <;>
        exact ⟨by simp [disconnect, h], by simp [disconnect]⟩
    · intro s hs
      simp only [openFailureTrace, h, if_pos, List.mem_cons, List.not_mem_nil,
        or_false] at hs
      rcases hs with rfl | rfl <;>
        exact ⟨by simp [disconnect, h], by simp [disconnect]⟩
    · intro s hs
      simp only [oncloseTrace, h, if_pos, List.mem_cons, List.not_mem_nil,
        or_false] at hs
      rcases hs with rfl | rfl <;>
        exact ⟨by simp [disconnect, h], by simp [disconnect]⟩
  · intro s
    exact ⟨rfl, rfl, rfl, rfl, rfl, rfl, rfl, rfl⟩

/-- C9 amended witness: the three failure traces evaluated from the
fresh connected state. -/
theorem c9_failure_amended_witness :
    (onerrorTrace 1 freshConnected).map (fun s => (s.connectionState, s.error))
      = [(ConnState.error, some ("Connection Error. Please try again.")),
         (ConnState.disconnected, some ("Connection Error. Please try again."))]
    ∧ (oncloseTrace 1 freshConnected).map (fun s => (s.connectionState, s.error))
      = [(ConnState.disconnected, freshConnected.error),
         (ConnState.disconnected, freshConnected.error)] :=
  ⟨(c9_failure_amended.1 1 freshConnected rfl).1,
   (c9_failure_amended.1 1 freshConnected rfl).2.2.1⟩

end YashAILive
